import Mathlib

/-!
Shallow embedding of `src/app.py` (the `RootWorkFlow` Lightning flow of the
stable-diffusion deployment app), covering the autoscaling controller, the
worker-slot attributes, the load-balancer snapshot pushes, the slack-bot
notification block and the cadence gate in `run()`.

Modelling conventions:
- Python wall-clock times (`time.time()`) are modelled as `Int` values passed
  in explicitly; the subtraction and comparison in the cadence gate are the
  source's, verbatim.
- The dynamically named attributes `serve_work_i` are modelled as a total map
  `slots : Nat → Worker`; `setattr` is `setSlot`.  Only indices below
  `num_workers` (plus the write index of an upscale) are ever read or written
  by the embedded code.
- The HTTP metric fetch `requests.get(...)` is an input `Option Int`: `some n`
  is a successful sample, `none` is a raised exception.  The source has no
  `try`/`except`, so a `none` makes the embedded function return with its
  `raised` flag set and the state untouched (nothing is mutated before the
  fetch in the source).
- External calls whose effect is invisible in the source (`model_serve.run`,
  `load_balancer.run`, `slack_bot.run`, `print`) are recorded through counter
  fields (`slack_run_calls`, `autoscale_calls`, `url_prints`) so temporal
  claims about how often they happen can be stated.
- The Python constructor performs no validation and cannot raise, so
  `RootWorkFlow.init` is wrapped in `Except String` and always returns `.ok`.
-/

set_option autoImplicit false

/-- A `StableDiffusionServe` work: identity plus whether `stop()` was called. -/
structure Worker where
  id : Nat
  stopped : Bool
deriving DecidableEq, Repr

/-- Constructing `StableDiffusionServe(cloud_compute=..., cache_calls=True, parallel=True)`:
a fresh, running worker. -/
def StableDiffusionServe.new (id : Nat) : Worker :=
  { id := id, stopped := false }

/-- `worker.stop()`. -/
def Worker.stop (w : Worker) : Worker :=
  { w with stopped := true }

/-- The `LoadBalancer(...)` collaborator: its constructor arguments plus the
last server snapshot pushed to it via `update_servers`. -/
structure LoadBalancer where
  max_wait_time : Int
  max_batch_size : Int
  servers : List Worker
deriving DecidableEq, Repr

/-- `self.load_balancer.update_servers(servers)`: store the pushed snapshot. -/
def LoadBalancer.update_servers (lb : LoadBalancer) (servers : List Worker) : LoadBalancer :=
  { lb with servers := servers }

/-- `setattr(self, f"serve_work_\x7bi\x7d", w)` on the slot map. -/
def setSlot (slots : Nat → Worker) (k : Nat) (w : Worker) : Nat → Worker :=
  fun i => if i = k then w else slots i

/-- The state of `RootWorkFlow` (src/app.py, lines 28-53), plus counters that
record how often the externally visible calls were made. -/
structure RootWorkFlow where
  initial_num_workers : Nat
  num_workers : Nat
  autoscale_interval : Int
  fake_trigger : Nat
  gpu_type : String
  last_autoscale : Int
  lb : LoadBalancer
  slots : Nat → Worker
  next_id : Nat
  printed_url : Bool
  slack_bot_url : String
  dream_url : String
  slack_run_calls : Nat
  autoscale_calls : Nat
  url_prints : Nat

namespace RootWorkFlow

/-- Class attribute `AUTOSCALE_UP_THRESHOLD = 10` (src/app.py line 20). -/
def AUTOSCALE_UP_THRESHOLD : Int := 10

/-- Class attribute `AUTOSCALE_DOWN_THRESHOLD = 1` (src/app.py line 21). -/
def AUTOSCALE_DOWN_THRESHOLD : Int := 1

/-- Class attribute `MAX_WORKERS = 5` (src/app.py line 22). -/
def MAX_WORKERS : Nat := 5

/-- `RootWorkFlow.__init__` (src/app.py lines 28-53).  `t0` is the value of
`time.time()` stored into `_last_autoscale`.  The constructor body contains no
validation and no `raise`, so the result is always `.ok`. -/
def init (initial_num_workers : Nat) (autoscale_interval : Int) (max_batch_size : Int)
    (batch_size_wait_s : Int) (gpu_type : String) (t0 : Int) :
    Except String RootWorkFlow :=
  Except.ok
    { initial_num_workers := initial_num_workers
      num_workers := initial_num_workers
      autoscale_interval := autoscale_interval
      fake_trigger := 0
      gpu_type := gpu_type
      last_autoscale := t0
      lb := { max_wait_time := batch_size_wait_s, max_batch_size := max_batch_size,
              servers := [] }
      slots := fun i => StableDiffusionServe.new i
      next_id := initial_num_workers
      printed_url := false
      slack_bot_url := ""
      dream_url := ""
      slack_run_calls := 0
      autoscale_calls := 0
      url_prints := 0 }

/-- The `model_servers` property (src/app.py lines 55-61): the workers at
attributes `serve_work_0 .. serve_work_(num_workers-1)`, in index order. -/
def model_servers (s : RootWorkFlow) : List Worker :=
  (List.range s.num_workers).map s.slots

/-- `RootWorkFlow.autoscale` (src/app.py lines 97-126).  `now` is the value
`time.time()` takes at line 126, `fetch` the outcome of the metric request at
line 99.  Returns the new state and whether an exception escaped. -/
def autoscale (s : RootWorkFlow) (now : Int) (fetch : Option Int) :
    RootWorkFlow × Bool :=
  match fetch with
  | none => (s, true)
  | some num_requests =>
    let num_workers := s.model_servers.length
    let s' :=
      if num_requests > AUTOSCALE_UP_THRESHOLD ∧ num_workers < MAX_WORKERS then
        -- upscale (lines 107-117)
        let work_index := s.model_servers.length
        let work := StableDiffusionServe.new s.next_id
        let s₁ := { s with slots := setSlot s.slots work_index work,
                           next_id := s.next_id + 1 }
        let s₂ := { s₁ with num_workers := s₁.num_workers + 1 }
        { s₂ with lb := s₂.lb.update_servers s₂.model_servers }
      else if num_requests < AUTOSCALE_DOWN_THRESHOLD ∧
          num_workers > s.initial_num_workers then
        -- downscale (lines 120-125)
        let worker := s.model_servers.getD (s.num_workers - 1) (StableDiffusionServe.new 0)
        let s₁ := { s with slots := setSlot s.slots (s.num_workers - 1) worker.stop }
        let s₂ := { s₁ with num_workers := s₁.num_workers - 1 }
        { s₂ with lb := s₂.lb.update_servers s₂.model_servers }
      else s
    ({ s' with last_autoscale := now }, false)

/-- The per-step external observations `run()` reads: `time.time()` at lines
86/126, the metric fetch outcome, `self.load_balancer.url` and
`self.slack_bot.url` ("" is Python-falsy). -/
structure RunInput where
  now : Int
  fetch : Option Int
  lb_url : String
  slack_url : String

/-- The slack-bot notification block of `run()` (src/app.py lines 74-82).
`self.slack_bot` is set in `__init__` and never cleared, so the `is not None`
test at line 76 is always true. -/
def slackBlock (s : RootWorkFlow) (inp : RunInput) : RootWorkFlow :=
  if inp.lb_url ≠ "" then
    let s₁ := { s with dream_url := inp.lb_url }
    let s₂ := { s₁ with slack_run_calls := s₁.slack_run_calls + 1,
                        slack_bot_url := inp.slack_url }
    if inp.slack_url ≠ "" ∧ s₂.printed_url = false then
      { s₂ with url_prints := s₂.url_prints + 1, printed_url := true }
    else s₂
  else s

/-- `RootWorkFlow.run` (src/app.py lines 63-87).  Lines 63-72 (starting the
works and the load balancer) have no effect on the embedded state; lines
74-82 are `slackBlock`; lines 84-87 are the cadence gate.  Returns the new
state and whether an exception escaped. -/
def runStep (s : RootWorkFlow) (inp : RunInput) : RootWorkFlow × Bool :=
  let t := slackBlock s inp
  if inp.lb_url ≠ "" then
    let t := { t with fake_trigger := t.fake_trigger + 1 }
    if inp.now - t.last_autoscale < t.autoscale_interval then
      let t := { t with autoscale_calls := t.autoscale_calls + 1 }
      t.autoscale inp.now inp.fetch
    else (t, false)
  else (t, false)

/-- Iterated `run()` steps, in order. -/
def runSteps (s : RootWorkFlow) (inps : List RunInput) : RootWorkFlow :=
  inps.foldl (fun s inp => (s.runStep inp).1) s

/-- A concrete state used to instantiate witnesses: `initial` configured
workers, currently `n` workers, `_last_autoscale = last`, the given interval. -/
def testState (initial n : Nat) (last interval : Int) : RootWorkFlow :=
  { initial_num_workers := initial
    num_workers := n
    autoscale_interval := interval
    fake_trigger := 0
    gpu_type := "gpu-fast"
    last_autoscale := last
    lb := { max_wait_time := 10, max_batch_size := 12, servers := [] }
    slots := fun i => StableDiffusionServe.new i
    next_id := n
    printed_url := false
    slack_bot_url := ""
    dream_url := ""
    slack_run_calls := 0
    autoscale_calls := 0
    url_prints := 0 }

theorem model_servers_length (s : RootWorkFlow) :
    s.model_servers.length = s.num_workers := by
  simp [model_servers]

theorem model_servers_getElem? (s : RootWorkFlow) (i : Nat) (h : i < s.num_workers) :
    s.model_servers[i]? = some (s.slots i) := by
  simp [model_servers, List.getElem?_map, List.getElem?_range, h]

theorem model_servers_getD (s : RootWorkFlow) (i : Nat) (h : i < s.num_workers)
    (w : Worker) : s.model_servers.getD i w = s.slots i := by
  simp [List.getD, model_servers_getElem? s i h]

theorem autoscale_preserves (s : RootWorkFlow) (now : Int) (fetch : Option Int) :
    (s.autoscale now fetch).1.autoscale_calls = s.autoscale_calls ∧
    (s.autoscale now fetch).1.slack_run_calls = s.slack_run_calls ∧
    (s.autoscale now fetch).1.url_prints = s.url_prints ∧
    (s.autoscale now fetch).1.printed_url = s.printed_url ∧
    (s.autoscale now fetch).1.autoscale_interval = s.autoscale_interval ∧
    (s.autoscale now fetch).1.initial_num_workers = s.initial_num_workers := by
  cases fetch with
  | none => exact ⟨rfl, rfl, rfl, rfl, rfl, rfl⟩
  | some n =>
    simp only [autoscale]
    split
    · exact ⟨rfl, rfl, rfl, rfl, rfl, rfl⟩
    · split
      · exact ⟨rfl, rfl, rfl, rfl, rfl, rfl⟩
      · exact ⟨rfl, rfl, rfl, rfl, rfl, rfl⟩

theorem slackBlock_preserves (s : RootWorkFlow) (inp : RunInput) :
    (slackBlock s inp).last_autoscale = s.last_autoscale ∧
    (slackBlock s inp).autoscale_interval = s.autoscale_interval ∧
    (slackBlock s inp).autoscale_calls = s.autoscale_calls ∧
    (slackBlock s inp).num_workers = s.num_workers ∧
    (slackBlock s inp).slots = s.slots ∧
    (slackBlock s inp).initial_num_workers = s.initial_num_workers ∧
    (slackBlock s inp).lb = s.lb ∧
    (slackBlock s inp).next_id = s.next_id := by
  simp only [slackBlock]
  split
  · split
    · exact ⟨rfl, rfl, rfl, rfl, rfl, rfl, rfl, rfl⟩
    · exact ⟨rfl, rfl, rfl, rfl, rfl, rfl, rfl, rfl⟩
  · exact ⟨rfl, rfl, rfl, rfl, rfl, rfl, rfl, rfl⟩

/-- When the cadence gate is false (elapsed time at least the interval),
`run()` does not invoke `autoscale` and leaves the gate-relevant fields
untouched. -/
theorem runStep_no_autoscale (s : RootWorkFlow) (inp : RunInput)
    (h : ¬ inp.now - s.last_autoscale < s.autoscale_interval) :
    (s.runStep inp).1.autoscale_calls = s.autoscale_calls ∧
    (s.runStep inp).1.last_autoscale = s.last_autoscale ∧
    (s.runStep inp).1.autoscale_interval = s.autoscale_interval := by
  have hp := slackBlock_preserves s inp
  simp only [runStep]
  split
  · rw [if_neg (by rw [hp.1, hp.2.1]; exact h)]
    exact ⟨hp.2.2.1, hp.1, hp.2.1⟩
  · exact ⟨hp.2.2.1, hp.1, hp.2.1⟩

/-- When the load balancer is ready and the cadence gate is true (elapsed
time strictly below the interval), `run()` invokes `autoscale` exactly once. -/
theorem runStep_autoscales (s : RootWorkFlow) (inp : RunInput)
    (h1 : inp.lb_url ≠ "")
    (h2 : inp.now - s.last_autoscale < s.autoscale_interval) :
    (s.runStep inp).1.autoscale_calls = s.autoscale_calls + 1 := by
  have hp := slackBlock_preserves s inp
  simp only [runStep, if_pos h1]
  rw [if_pos (by rw [hp.1, hp.2.1]; exact h2)]
  have ha := autoscale_preserves
    { slackBlock s inp with
      fake_trigger := (slackBlock s inp).fake_trigger + 1,
      autoscale_calls := (slackBlock s inp).autoscale_calls + 1 } inp.now inp.fetch
  rw [ha.1]
  exact congrArg (· + 1) hp.2.2.1

/-- The upscale branch (src/app.py lines 107-117): one fresh worker is written
at index `num_workers`, all other slots are untouched, `num_workers`
increments, and the new snapshot is pushed to the load balancer. -/
theorem autoscale_up_spec (s : RootWorkFlow) (now : Int) (n : Int)
    (h1 : n > AUTOSCALE_UP_THRESHOLD) (h2 : s.num_workers < MAX_WORKERS) :
    ((s.autoscale now (some n)).1.num_workers = s.num_workers + 1) ∧
    ((s.autoscale now (some n)).1.slots s.num_workers =
      StableDiffusionServe.new s.next_id) ∧
    (∀ i, i ≠ s.num_workers → (s.autoscale now (some n)).1.slots i = s.slots i) ∧
    ((s.autoscale now (some n)).1.next_id = s.next_id + 1) ∧
    ((s.autoscale now (some n)).1.lb.servers =
      (s.autoscale now (some n)).1.model_servers) := by
  have hlen : s.model_servers.length = s.num_workers := model_servers_length s
  simp only [autoscale]
  rw [if_pos ⟨h1, by rw [hlen]; exact h2⟩]
  refine ⟨rfl, ?_, ?_, rfl, rfl⟩
  · simp [setSlot, hlen]
  · intro i hi
    simp [setSlot, hlen, hi]

/-- The downscale branch (src/app.py lines 120-125): the highest-index worker
is stopped in place (its slot survives), all other slots are untouched,
`num_workers` decrements, and the new snapshot — the lower-index workers
only — is pushed to the load balancer. -/
theorem autoscale_down_spec (s : RootWorkFlow) (now : Int) (n : Int)
    (h0 : ¬(n > AUTOSCALE_UP_THRESHOLD ∧ s.num_workers < MAX_WORKERS))
    (h1 : n < AUTOSCALE_DOWN_THRESHOLD)
    (h2 : s.num_workers > s.initial_num_workers) :
    ((s.autoscale now (some n)).1.num_workers = s.num_workers - 1) ∧
    ((s.autoscale now (some n)).1.slots (s.num_workers - 1) =
      (s.slots (s.num_workers - 1)).stop) ∧
    (∀ i, i ≠ s.num_workers - 1 → (s.autoscale now (some n)).1.slots i = s.slots i) ∧
    ((s.autoscale now (some n)).1.next_id = s.next_id) ∧
    ((s.autoscale now (some n)).1.lb.servers =
      (s.autoscale now (some n)).1.model_servers) := by
  have hlen : s.model_servers.length = s.num_workers := model_servers_length s
  have hpos : 0 < s.num_workers := Nat.lt_of_le_of_lt (Nat.zero_le _) h2
  have hgd := model_servers_getD s (s.num_workers - 1) (by omega)
    (StableDiffusionServe.new 0)
  simp only [autoscale]
  rw [if_neg (by rw [hlen]; exact h0), if_pos ⟨h1, by rw [hlen]; exact h2⟩]
  refine ⟨rfl, ?_, ?_, rfl, rfl⟩
  · simp only [List.getD, List.get?_eq_getElem?] at hgd
    simp [setSlot, hgd]
  · intro i hi
    simp [setSlot, hi]

/-- How one autoscale tick with a successful sample changes `num_workers`,
as a closed form over the two branch guards. -/
theorem autoscale_num_workers (s : RootWorkFlow) (now : Int) (n : Int) :
    (s.autoscale now (some n)).1.num_workers =
      (if n > AUTOSCALE_UP_THRESHOLD ∧ s.num_workers < MAX_WORKERS
       then s.num_workers + 1
       else if n < AUTOSCALE_DOWN_THRESHOLD ∧ s.num_workers > s.initial_num_workers
       then s.num_workers - 1
       else s.num_workers) := by
  have hlen : s.model_servers.length = s.num_workers := model_servers_length s
  simp only [autoscale, hlen]
  by_cases hc1 : n > AUTOSCALE_UP_THRESHOLD ∧ s.num_workers < MAX_WORKERS
  · rw [if_pos hc1, if_pos hc1]
  · rw [if_neg hc1, if_neg hc1]
    by_cases hc2 : n < AUTOSCALE_DOWN_THRESHOLD ∧ s.num_workers > s.initial_num_workers
    · rw [if_pos hc2, if_pos hc2]
    · rw [if_neg hc2, if_neg hc2]

/-- The notification block increments the slack-bot call counter on every
ready step, while the console announcement happens only while `printed_url`
is still false. -/
theorem slackBlock_spec (s : RootWorkFlow) (inp : RunInput) (h : inp.lb_url ≠ "") :
    ((slackBlock s inp).slack_run_calls = s.slack_run_calls + 1) ∧
    (s.printed_url = true →
      (slackBlock s inp).url_prints = s.url_prints ∧
      (slackBlock s inp).printed_url = true) ∧
    (s.printed_url = false → inp.slack_url ≠ "" →
      (slackBlock s inp).url_prints = s.url_prints + 1 ∧
      (slackBlock s inp).printed_url = true) := by
  simp only [slackBlock, if_pos h]
  split
  · next hc =>
    refine ⟨rfl, ?_, fun _ _ => ⟨rfl, rfl⟩⟩
    intro hp
    have hfalse : s.printed_url = false := hc.2
    rw [hp] at hfalse
    cases hfalse
  · next hc =>
    refine ⟨rfl, fun hp => ⟨rfl, hp⟩, ?_⟩
    intro hp hsu
    exact absurd ⟨hsu, hp⟩ hc

/-- The cadence-gate block of `run()` does not touch the notification
counters, so after a full step they agree with the notification block's. -/
theorem runStep_slack_counters (s : RootWorkFlow) (inp : RunInput) :
    (s.runStep inp).1.slack_run_calls = (slackBlock s inp).slack_run_calls ∧
    (s.runStep inp).1.url_prints = (slackBlock s inp).url_prints ∧
    (s.runStep inp).1.printed_url = (slackBlock s inp).printed_url := by
  simp only [runStep]
  split
  · split
    · exact ⟨(autoscale_preserves _ _ _).2.1, (autoscale_preserves _ _ _).2.2.1,
        (autoscale_preserves _ _ _).2.2.2.1⟩
    · exact ⟨rfl, rfl, rfl⟩
  · exact ⟨rfl, rfl, rfl⟩

end RootWorkFlow

open RootWorkFlow

/-- C1 (counterexample): the claim says that in a ready `run()` step
`autoscale` is invoked exactly when the elapsed time since `_last_autoscale`
is at least `autoscale_interval`.  At a concrete ready step with elapsed time
100 ≥ interval 30, `autoscale` is not invoked; at a ready step with elapsed
time 5 < 30 it is invoked.  Both directions of the claimed equivalence fail. -/
theorem C1_counterexample :
    ((100 : Int) - (testState 2 3 0 30).last_autoscale ≥
        (testState 2 3 0 30).autoscale_interval ∧
      ((testState 2 3 0 30).runStep ⟨100, some 15, "u", ""⟩).1.autoscale_calls = 0) ∧
    ((5 : Int) - (testState 2 3 0 30).last_autoscale <
        (testState 2 3 0 30).autoscale_interval ∧
      ((testState 2 3 0 30).runStep ⟨5, some 15, "u", ""⟩).1.autoscale_calls = 1) :=
  ⟨⟨by decide, by decide⟩, by decide, by decide⟩

/-- C1 (amended): in any `run()` step where the load balancer URL is ready,
`autoscale` is invoked exactly when the elapsed time since `_last_autoscale`
is strictly LESS than `autoscale_interval` — the cadence gate at line 86 is
inverted relative to interval-spaced execution. -/
theorem C1_gate_inverted (s : RootWorkFlow) (inp : RunInput)
    (h : inp.lb_url ≠ "") :
    (s.runStep inp).1.autoscale_calls = s.autoscale_calls + 1 ↔
      inp.now - s.last_autoscale < s.autoscale_interval := by
  constructor
  · intro hc
    by_contra hg
    have := (runStep_no_autoscale s inp hg).1
    omega
  · intro hg
    exact runStep_autoscales s inp h hg

/-- C1 (witness): the amended gate characterisation, instantiated at a
concrete ready step with elapsed time below the interval. -/
theorem C1_gate_inverted_witness :
    (((testState 2 3 0 30).runStep ⟨5, some 15, "u", ""⟩).1.autoscale_calls =
        (testState 2 3 0 30).autoscale_calls + 1 ↔
      (5 : Int) - (testState 2 3 0 30).last_autoscale <
        (testState 2 3 0 30).autoscale_interval) :=
  C1_gate_inverted (testState 2 3 0 30) ⟨5, some 15, "u", ""⟩ (by decide)

/-- C2: on an autoscale tick whose sampled pending count exceeds the up
threshold (10) while the worker count is below `MAX_WORKERS` (5), the
controller writes exactly one freshly constructed worker at the next free
index (all other slots unchanged), increments `num_workers` by one, and
pushes the updated `model_servers` snapshot to the load balancer. -/
theorem C2_upscale (s : RootWorkFlow) (now : Int) (n : Int)
    (h1 : n > AUTOSCALE_UP_THRESHOLD) (h2 : s.num_workers < MAX_WORKERS) :
    ((s.autoscale now (some n)).1.num_workers = s.num_workers + 1) ∧
    ((s.autoscale now (some n)).1.slots s.num_workers =
      StableDiffusionServe.new s.next_id) ∧
    (∀ i, i ≠ s.num_workers → (s.autoscale now (some n)).1.slots i = s.slots i) ∧
    ((s.autoscale now (some n)).1.lb.servers =
      (s.autoscale now (some n)).1.model_servers) := by
  obtain ⟨a, b, c, _, d⟩ := autoscale_up_spec s now n h1 h2
  exact ⟨a, b, c, d⟩

/-- C2 (witness): the spec scenario `pendingCount = 15`, pool size 3,
`maxWorkers = 5` — the pool grows to 4. -/
theorem C2_upscale_witness :
    ((testState 2 3 0 30).autoscale 5 (some 15)).1.num_workers =
      (testState 2 3 0 30).num_workers + 1 :=
  (C2_upscale (testState 2 3 0 30) 5 15 (by decide) (by decide)).1

/-- C3: on an autoscale tick where the up-scale branch does not apply, the
sampled pending count is below the down threshold (1) and the worker count
exceeds the configured initial count, the controller stops exactly the
highest-index worker (all other slots unchanged), decrements `num_workers`
by one, and pushes the updated snapshot to the load balancer. -/
theorem C3_downscale (s : RootWorkFlow) (now : Int) (n : Int)
    (h0 : ¬(n > AUTOSCALE_UP_THRESHOLD ∧ s.num_workers < MAX_WORKERS))
    (h1 : n < AUTOSCALE_DOWN_THRESHOLD)
    (h2 : s.num_workers > s.initial_num_workers) :
    ((s.autoscale now (some n)).1.num_workers = s.num_workers - 1) ∧
    ((s.autoscale now (some n)).1.slots (s.num_workers - 1) =
      (s.slots (s.num_workers - 1)).stop) ∧
    (∀ i, i ≠ s.num_workers - 1 → (s.autoscale now (some n)).1.slots i = s.slots i) ∧
    ((s.autoscale now (some n)).1.lb.servers =
      (s.autoscale now (some n)).1.model_servers) := by
  obtain ⟨a, b, c, _, d⟩ := autoscale_down_spec s now n h0 h1 h2
  exact ⟨a, b, c, d⟩

/-- C3 (witness): the spec scenario `pendingCount = 0`, pool size 3, lower
bound 2 — the pool shrinks to 2. -/
theorem C3_downscale_witness :
    ((testState 2 3 0 30).autoscale 5 (some 0)).1.num_workers =
      (testState 2 3 0 30).num_workers - 1 :=
  (C3_downscale (testState 2 3 0 30) 5 0 (by decide) (by decide) (by decide)).1

/-- C4: assuming `initial_num_workers ≤ num_workers ≤ MAX_WORKERS` before an
autoscale tick, the same bounds hold afterwards, and when the pool is already
at `MAX_WORKERS` no scale-up occurs regardless of the sampled pending count. -/
theorem C4_pool_invariant (s : RootWorkFlow) (now : Int) (fetch : Option Int)
    (hlo : s.initial_num_workers ≤ s.num_workers)
    (hhi : s.num_workers ≤ MAX_WORKERS) :
    (s.initial_num_workers ≤ (s.autoscale now fetch).1.num_workers ∧
      (s.autoscale now fetch).1.num_workers ≤ MAX_WORKERS) ∧
    (s.num_workers = MAX_WORKERS →
      (s.autoscale now fetch).1.num_workers ≤ s.num_workers) := by
  cases fetch with
  | none => exact ⟨⟨hlo, hhi⟩, fun _ => Nat.le_refl _⟩
  | some n =>
    rw [autoscale_num_workers]
    by_cases hc1 : n > AUTOSCALE_UP_THRESHOLD ∧ s.num_workers < MAX_WORKERS
    · rw [if_pos hc1]
      obtain ⟨-, h5⟩ := hc1
      exact ⟨⟨Nat.le_succ_of_le hlo, h5⟩, fun hm => by omega⟩
    · rw [if_neg hc1]
      by_cases hc2 : n < AUTOSCALE_DOWN_THRESHOLD ∧
          s.num_workers > s.initial_num_workers
      · rw [if_pos hc2]
        obtain ⟨-, hgt⟩ := hc2
        exact ⟨⟨by omega, by omega⟩, fun _ => by omega⟩
      · rw [if_neg hc2]
        exact ⟨⟨hlo, hhi⟩, fun _ => Nat.le_refl _⟩

/-- C4 (witness): the spec scenario — pool already at `maxWorkers = 5` with
`pendingCount = 50`: the pool does not grow. -/
theorem C4_pool_invariant_witness :
    ((testState 2 5 0 30).autoscale 5 (some 50)).1.num_workers ≤
      (testState 2 5 0 30).num_workers :=
  (C4_pool_invariant (testState 2 5 0 30) 5 (some 50) (by decide) (by decide)).2
    (by decide)

/-- C5 (counterexample): the claim says invalid configuration (for example
`maxBatchSize ≤ 0` or `initialWorkerCount < 1`) is fatal at construction.
Constructing the flow with `initial_num_workers = 0`, a negative interval,
`max_batch_size = 0`, a negative wait and an empty compute profile succeeds
normally — `__init__` contains no validation. -/
theorem C5_counterexample :
    ∃ s, RootWorkFlow.init 0 (-5) 0 (-1) "" 0 = Except.ok s ∧
      s.lb.max_batch_size = 0 ∧ s.num_workers = 0 :=
  ⟨_, rfl, rfl, rfl⟩

/-- C5 (amended): construction performs no validation at all — it succeeds
for every parameter combination, storing the parameters verbatim and
proceeding with them. -/
theorem C5_no_validation (i : Nat) (a m b : Int) (g : String) (t : Int) :
    ∃ s, RootWorkFlow.init i a m b g t = Except.ok s ∧
      s.num_workers = i ∧ s.lb.max_batch_size = m ∧ s.autoscale_interval = a :=
  ⟨_, rfl, rfl, rfl, rfl⟩

/-- C6 (counterexample): the claim says a failed pending-count sample makes
the controller skip the tick and continue, not fatally.  On a concrete state,
a failed sample makes `autoscale` terminate with its exception flag raised
(the `requests.get` call at line 99 is wrapped in no `try`/`except`), with
even `_last_autoscale` left unrecorded — the tick is abandoned, not skipped
and continued. -/
theorem C6_counterexample :
    (testState 2 3 0 30).autoscale 100 none = (testState 2 3 0 30, true) := rfl

/-- C6 (amended): a failed metric sample leaves the whole state unchanged —
no scale decision, `num_workers`, the slots and the load-balancer snapshot
untouched, and `_last_autoscale` not updated — but the exception propagates
out of `autoscale` uncaught instead of being swallowed. -/
theorem C6_fetch_failure (s : RootWorkFlow) (now : Int) :
    s.autoscale now none = (s, true) := rfl

/-- C7 (counterexample): the claim says the ready load-balancer URL is pushed
to the slack-bot sink exactly once across all subsequent steps.  Two
consecutive ready `run()` steps invoke `slack_bot.run` twice (line 77 runs on
every ready step); only the console announcement is once-guarded. -/
theorem C7_counterexample :
    (runSteps (testState 2 3 0 30)
      [⟨100, some 5, "u", "su"⟩, ⟨200, some 5, "u", "su"⟩]).slack_run_calls = 2 :=
  by decide

/-- C7 (amended): `slack_bot.run` is invoked with the load-balancer URL on
every `run()` step in which that URL is ready — not exactly once — while the
console announcement of the URLs is printed exactly once: a step that prints
sets `printed_url`, and once `printed_url` holds no later step prints. -/
theorem C7_slack_publish (s : RootWorkFlow) (inp : RunInput)
    (h : inp.lb_url ≠ "") :
    ((s.runStep inp).1.slack_run_calls = s.slack_run_calls + 1) ∧
    (s.printed_url = true →
      (s.runStep inp).1.url_prints = s.url_prints ∧
      (s.runStep inp).1.printed_url = true) ∧
    (s.printed_url = false → inp.slack_url ≠ "" →
      (s.runStep inp).1.url_prints = s.url_prints + 1 ∧
      (s.runStep inp).1.printed_url = true) := by
  have hr := runStep_slack_counters s inp
  have hs := slackBlock_spec s inp h
  refine ⟨hr.1.trans hs.1, fun hp => ?_, fun hp hsu => ?_⟩
  · exact ⟨hr.2.1.trans (hs.2.1 hp).1, hr.2.2.trans (hs.2.1 hp).2⟩
  · exact ⟨hr.2.1.trans (hs.2.2 hp hsu).1, hr.2.2.trans (hs.2.2 hp hsu).2⟩

/-- C7 (witness): the amended statement at a concrete ready step that has not
yet printed: one more slack-bot call, one print, `printed_url` set. -/
theorem C7_slack_publish_witness :
    (((testState 2 3 0 30).runStep ⟨100, some 5, "u", "su"⟩).1.slack_run_calls =
      (testState 2 3 0 30).slack_run_calls + 1) :=
  (C7_slack_publish (testState 2 3 0 30) ⟨100, some 5, "u", "su"⟩ (by decide)).1

/-- C8: one autoscale invocation changes `num_workers` by at most one — it
either increments it by one (a single add), decrements it by one (a single
remove), or leaves it unchanged; an add and a remove never both happen. -/
theorem C8_at_most_one_event (s : RootWorkFlow) (now : Int) (fetch : Option Int) :
    (s.autoscale now fetch).1.num_workers = s.num_workers + 1 ∨
    (s.autoscale now fetch).1.num_workers = s.num_workers - 1 ∨
    (s.autoscale now fetch).1.num_workers = s.num_workers := by
  cases fetch with
  | none => exact Or.inr (Or.inr rfl)
  | some n =>
    rw [autoscale_num_workers]
    by_cases hc1 : n > AUTOSCALE_UP_THRESHOLD ∧ s.num_workers < MAX_WORKERS
    · rw [if_pos hc1]
      exact Or.inl rfl
    · rw [if_neg hc1]
      by_cases hc2 : n < AUTOSCALE_DOWN_THRESHOLD ∧
          s.num_workers > s.initial_num_workers
      · rw [if_pos hc2]
        exact Or.inr (Or.inl rfl)
      · rw [if_neg hc2]
        exact Or.inr (Or.inr rfl)

/-- C9: once a step's time puts the elapsed interval at or past
`autoscale_interval`, no subsequent `run()` step with a non-decreasing clock
ever invokes `autoscale` again, and `_last_autoscale` never changes again:
the inverted gate makes autoscaling permanently cease. -/
theorem C9_autoscale_ceases (s : RootWorkFlow) (t : Int) (inps : List RunInput)
    (hgate : s.autoscale_interval ≤ t - s.last_autoscale)
    (hmono : ∀ inp ∈ inps, t ≤ inp.now) :
    (runSteps s inps).autoscale_calls = s.autoscale_calls ∧
    (runSteps s inps).last_autoscale = s.last_autoscale := by
  induction inps generalizing s with
  | nil => exact ⟨rfl, rfl⟩
  | cons inp rest ih =>
    have hnow : t ≤ inp.now := hmono inp (List.mem_cons_self inp rest)
    have h1 : ¬ inp.now - s.last_autoscale < s.autoscale_interval := by omega
    have hstep := runStep_no_autoscale s inp h1
    have hrest := ih (s.runStep inp).1
      (by rw [hstep.2.1, hstep.2.2]; exact hgate)
      (fun i hi => hmono i (List.mem_cons_of_mem inp hi))
    exact ⟨hrest.1.trans hstep.1, hrest.2.trans hstep.2.1⟩

/-- C9 (witness): a state whose interval (30) has already elapsed at time 40
goes through two ready steps (times 100 and 200) without any autoscale
invocation and without `_last_autoscale` moving. -/
theorem C9_autoscale_ceases_witness :
    (runSteps (testState 2 3 0 30)
        [⟨100, some 15, "u", ""⟩, ⟨200, some 15, "u", ""⟩]).autoscale_calls =
      (testState 2 3 0 30).autoscale_calls :=
  (C9_autoscale_ceases (testState 2 3 0 30) 40
    [⟨100, some 15, "u", ""⟩, ⟨200, some 15, "u", ""⟩]
    (by decide) (by decide)).1

/-- C10: `model_servers` always returns exactly `num_workers` workers, the
one at position `i` read from slot attribute `serve_work_i`; a downscale
leaves slots `0 .. num_workers-2` unchanged and keeps the removed worker's
slot (stopped in place, merely excluded from the pushed snapshot, which now
lists exactly the lower-index workers); a subsequent upscale overwrites the
slot at the new `num_workers` index with a freshly constructed worker while
leaving all lower-index slots unchanged. -/
theorem C10_slot_stability (s : RootWorkFlow) (now now' : Int) (n n' : Int)
    (h0 : ¬(n > AUTOSCALE_UP_THRESHOLD ∧ s.num_workers < MAX_WORKERS))
    (h1 : n < AUTOSCALE_DOWN_THRESHOLD)
    (h2 : s.num_workers > s.initial_num_workers)
    (h3 : n' > AUTOSCALE_UP_THRESHOLD)
    (h4 : s.num_workers ≤ MAX_WORKERS) :
    (∀ u : RootWorkFlow, u.model_servers.length = u.num_workers ∧
      ∀ i, i < u.num_workers → u.model_servers[i]? = some (u.slots i)) ∧
    ((s.autoscale now (some n)).1.num_workers = s.num_workers - 1) ∧
    ((s.autoscale now (some n)).1.slots (s.num_workers - 1) =
      (s.slots (s.num_workers - 1)).stop) ∧
    (∀ i, i < s.num_workers - 1 →
      (s.autoscale now (some n)).1.slots i = s.slots i) ∧
    ((s.autoscale now (some n)).1.model_servers =
      (List.range (s.num_workers - 1)).map s.slots) ∧
    (((s.autoscale now (some n)).1.autoscale now' (some n')).1.slots
        (s.autoscale now (some n)).1.num_workers =
      StableDiffusionServe.new (s.autoscale now (some n)).1.next_id) ∧
    (∀ i, i < (s.autoscale now (some n)).1.num_workers →
      ((s.autoscale now (some n)).1.autoscale now' (some n')).1.slots i =
        (s.autoscale now (some n)).1.slots i) := by
  have hdown := autoscale_down_spec s now n h0 h1 h2
  set s₁ := (s.autoscale now (some n)).1 with hs₁
  have hlt : s₁.num_workers < MAX_WORKERS := by rw [hdown.1]; omega
  have hup := autoscale_up_spec s₁ now' n' h3 hlt
  refine ⟨?_, hdown.1, hdown.2.1, ?_, ?_, hup.2.1, ?_⟩
  · intro u
    exact ⟨model_servers_length u, fun i hi => model_servers_getElem? u i hi⟩
  · intro i hi
    exact hdown.2.2.1 i (by omega)
  · show (List.range s₁.num_workers).map s₁.slots =
      (List.range (s.num_workers - 1)).map s.slots
    rw [hdown.1]
    refine List.map_congr_left ?_
    intro i hi
    exact hdown.2.2.1 i (by have := List.mem_range.mp hi; omega)
  · intro i hi
    exact hup.2.2.1 i (by omega)

/-- C10 (witness): with 3 workers (lower bound 2), a downscale tick stops the
worker at slot 2 in place — the attribute still holds it, stopped. -/
theorem C10_slot_stability_witness :
    ((testState 2 3 0 30).autoscale 5 (some 0)).1.slots 2 =
      ((testState 2 3 0 30).slots 2).stop :=
  (C10_slot_stability (testState 2 3 0 30) 5 6 0 15 (by decide) (by decide)
    (by decide) (by decide) (by decide)).2.2.1
